import Mathlib

/-!
Verification of the BeeLocate core (app.py): input parsing, TTL cache,
data-source fallback logic, 3-point terrain derivation, and the
multi-factor scoring engine.  Numeric Python operations are embedded
exactly: `round` is round-half-to-even, `int` truncates toward zero,
`%` on reals follows the sign of the divisor, `clamp` is `max lo (min hi x)`.
Floats are modelled by exact rationals/reals.
-/

namespace BeeLocate

open Real

/-- Source clamp: `max(lo, min(hi, x))`. -/
def clamp {α : Type} [LinearOrder α] (x lo hi : α) : α :=
  max lo (min hi x)

/-- Python `round` with no digits: nearest integer, ties to even. -/
def pyRound {α : Type} [LinearOrderedField α] [FloorRing α] (x : α) : ℤ :=
  if x - ⌊x⌋ < 1/2 then ⌊x⌋
  else if 1/2 < x - ⌊x⌋ then ⌊x⌋ + 1
  else if ⌊x⌋ % 2 = 0 then ⌊x⌋ else ⌊x⌋ + 1

/-- Python `int` on a number: truncation toward zero. -/
def pyInt {α : Type} [LinearOrderedField α] [FloorRing α] (x : α) : ℤ :=
  if x < 0 then ⌈x⌉ else ⌊x⌋

/-- Python `%` on reals with a positive divisor: `x - m * floor (x / m)`. -/
noncomputable def pymod (x m : ℝ) : ℝ :=
  x - m * ⌊x / m⌋

/-- Standard two-argument arctangent as in `math.atan2` (angle of (x, y)). -/
noncomputable def atan2 (y x : ℝ) : ℝ :=
  if 0 < x then Real.arctan (y / x)
  else if x < 0 ∧ 0 ≤ y then Real.arctan (y / x) + π
  else if x < 0 ∧ y < 0 then Real.arctan (y / x) - π
  else if x = 0 ∧ 0 < y then π / 2
  else if x = 0 ∧ y < 0 then -(π / 2)
  else 0


/-!
Data model.  An OSM element carries the tag keys the scoring engine reads
(landuse, natural, building) and optional coordinates, either directly or
via a way centroid.  Absent tag dictionaries are absorbed into a record of
all-none fields, matching `e.get("tags", {}) or {}`.
-/

/-- Tag keys of an OSM element that the engine reads. -/
structure Tags where
  landuse : Option String
  natural : Option String
  building : Option String
deriving DecidableEq, Repr

/-- An OSM element: tags plus optional node coordinates or way centroid. -/
structure Element where
  tags : Tags
  lat : Option ℚ
  lon : Option ℚ
  centerLat : Option ℚ
  centerLon : Option ℚ
deriving DecidableEq, Repr

/-- Python `a or b` on optional numbers: `a` when present and nonzero
(0.0 is falsy), else `b`.  Mirrors `w.get("lat") or center.get("lat")`. -/
def pyOr (a b : Option ℚ) : Option ℚ :=
  match a with
  | some v => if v = 0 then b else some v
  | none => b

/-- Current-weather record from the weather service. -/
structure Weather where
  temperature : Option ℚ
  windspeed : Option ℚ
  time : Option String
deriving DecidableEq, Repr

/-- Full parsed weather response: current block plus hourly parallel arrays. -/
structure WxResp where
  current : Weather
  hourlyTime : List String
  hourlyHum : List ℚ
deriving DecidableEq, Repr

/-!
TTL cache.  The store is a map from keys to items; `get` lazily evicts an
entry whose expiry is strictly in the past.  Time is an explicit parameter
standing for `time.time()`.
-/

/-- Cache entry: value plus absolute expiry time. -/
structure CacheItem (β : Type) where
  value : β
  expires_at : ℚ

/-- In-memory TTL cache with lazy eviction on read. -/
structure TTLCache (β : Type) where
  ttl : ℚ
  store : String → Option (CacheItem β)

/-- Source get: absent on miss; on an expired entry, remove it and report
absent; otherwise return the stored value.  Returns the possibly-updated
cache alongside the result. -/
def TTLCache.get {β : Type} (c : TTLCache β) (now : ℚ) (key : String) :
    Option β × TTLCache β :=
  match c.store key with
  | none => (none, c)
  | some item =>
      if item.expires_at < now then
        (none, { c with store := fun k => if k = key then none else c.store k })
      else
        (some item.value, c)

/-- Source set: store the value with expiry `now + ttl`. -/
def TTLCache.set {β : Type} (c : TTLCache β) (now : ℚ) (key : String) (v : β) :
    TTLCache β :=
  { c with store := fun k => if k = key then some ⟨v, now + c.ttl⟩ else c.store k }

/-!
Cache keys.  Each source formats the coordinates with `%.5f`.  On exact
rationals that formatting rounds the magnitude half-to-even at the fifth
decimal and keeps a sign marker for negative inputs: Python prints
`-0.00000` for -0.000001 but `0.00000` for 0.000001, so the sign is part
of the key even when the rounded magnitude is zero.  A key is modelled
as the source prefix together with those formatted fields (the decimal
string is determined by, and determines, that data).
-/

/-- Formatted `%.5f` field of a coordinate: the sign marker (true for
negative values, kept even when the rounded magnitude is zero) together
with the magnitude rounded half-to-even at the fifth decimal. -/
def fmt5 (x : ℚ) : Bool × ℤ :=
  (if x < 0 then true else false, pyRound (|x| * 100000))

/-- Cache key of the land-cover source: prefix, both coordinates, radius. -/
def osmCacheKey (lat lng : ℚ) (radius : ℤ) :
    String × (Bool × ℤ) × (Bool × ℤ) × ℤ :=
  ("osm", fmt5 lat, fmt5 lng, radius)

/-- Cache key of the weather source. -/
def wxCacheKey (lat lng : ℚ) : String × (Bool × ℤ) × (Bool × ℤ) :=
  ("wx", fmt5 lat, fmt5 lng)

/-- Cache key of the elevation source. -/
def elevCacheKey (lat lng : ℚ) : String × (Bool × ℤ) × (Bool × ℤ) :=
  ("elev", fmt5 lat, fmt5 lng)

/-!
Input validation, from parse_lat_lng_radius.
-/

/-- Request payload: the JSON body fields the parser reads, as numbers. -/
structure Payload where
  lat : Option ℚ
  lng : Option ℚ
  radius : Option ℚ
deriving DecidableEq, Repr

/-- Source parse_lat_lng_radius: requires lat and lng, defaults radius to
2000, range-checks the coordinates, truncates and clamps the radius to
[250, 10000].  Raised ValueErrors are the error results. -/
def parse_lat_lng_radius (p : Payload) : Except String (ℚ × ℚ × ℤ) :=
  match p.lat, p.lng with
  | some lat, some lng =>
      let radius : ℤ := pyInt (p.radius.getD 2000)
      if ¬(-90 ≤ lat ∧ lat ≤ 90) then
        .error ("lat -90 ile 90 arasinda olmali.")
      else if ¬(-180 ≤ lng ∧ lng ≤ 180) then
        .error ("lng -180 ile 180 arasinda olmali.")
      else
        .ok (lat, lng, max 250 (min 10000 radius))
  | _, _ => .error ("lat ve lng zorunlu.")

/-!
Geo-math utilities.
-/

/-- Source get_distance_m: haversine great-circle distance in meters. -/
noncomputable def get_distance_m (lat1 lon1 lat2 lon2 : ℝ) : ℝ :=
  let R : ℝ := 6371000.0
  let phi1 := lat1 * π / 180
  let phi2 := lat2 * π / 180
  let dphi := (lat2 - lat1) * π / 180
  let dlambda := (lon2 - lon1) * π / 180
  let a := Real.sin (dphi / 2) ^ 2 +
    Real.cos phi1 * Real.cos phi2 * Real.sin (dlambda / 2) ^ 2
  2 * R * atan2 (Real.sqrt a) (Real.sqrt (1 - a))

/-- Source meters_per_deg_lon. -/
noncomputable def meters_per_deg_lon (lat : ℝ) : ℝ :=
  111320.0 * Real.cos (lat * π / 180)

/-- Source meters_per_deg_lat. -/
def meters_per_deg_lat : ℝ :=
  111320.0

/-!
Weather source: humidity selection from the hourly series, with fallback
to 50 on any failure or on falsy current time or empty arrays.  The HTTP
outcome is an Option: none stands for any raised error (non-200, timeout),
whose except-branch yields the documented default.
-/

/-- Humidity pick of get_full_weather once a response parsed: exact
timestamp match selects that index, else the first hourly value; default
50 when current time is falsy, an array is empty, or lengths differ. -/
def weatherHumidityPick (d : WxResp) : ℤ :=
  match d.current.time with
  | some t =>
      if t ≠ "" ∧ d.hourlyTime ≠ [] ∧ d.hourlyHum ≠ [] ∧
          d.hourlyTime.length = d.hourlyHum.length then
        if t ∈ d.hourlyTime then
          pyInt (d.hourlyHum.getD (d.hourlyTime.indexOf t) 0)
        else
          pyInt (d.hourlyHum.getD 0 0)
      else 50
  | none => 50

/-- Source get_full_weather as a function of the HTTP outcome: on failure
the documented default (empty current record, humidity 50); on success the
current record and the clamped humidity pick. -/
def get_full_weather (resp : Option WxResp) : Weather × ℤ :=
  match resp with
  | none => (⟨none, none, none⟩, 50)
  | some d => (d.current, max 0 (min 100 (weatherHumidityPick d)))

/-!
Terrain source: 3-point finite-difference slope/aspect from the elevation
samples [center, north, east].
-/

/-- Northward reference distance: meters_per_deg_lat times ddeg = 0.001. -/
def dyM : ℝ :=
  meters_per_deg_lat * 0.001

/-- Eastward reference distance at the query latitude. -/
noncomputable def dxM (lat : ℝ) : ℝ :=
  meters_per_deg_lon lat * 0.001

/-- Core of calculate_real_topography once the elevation list parsed:
degenerate fallbacks, then gradient, slope percent, aspect in degrees.
Returns (slope_percent, aspect_degrees, elevation_meters) as integers. -/
noncomputable def topoFromElevs (lat : ℝ) (elevs : List ℝ) : ℤ × ℤ × ℤ :=
  if elevs.length < 3 then (0, 0, 0)
  else
    let h0 := elevs.getD 0 0
    let hNorth := elevs.getD 1 0
    let hEast := elevs.getD 2 0
    if dxM lat ≤ 1e-6 ∨ dyM ≤ 1e-6 then (0, 0, pyInt h0)
    else
      let dzdy := (hNorth - h0) / dyM
      let dzdx := (hEast - h0) / dxM lat
      let slopeRad := Real.arctan (Real.sqrt (dzdx ^ 2 + dzdy ^ 2))
      let slopePct := Real.tan slopeRad * 100.0
      let aspectRad := atan2 (-dzdx) (-dzdy)
      let aspectDeg := pymod (aspectRad * 180 / π + 360.0) 360.0
      (pyRound (clamp slopePct 0 200), pyRound aspectDeg, pyRound h0)

/-- Source calculate_real_topography as a function of the HTTP outcome:
any failure yields (0, 0, 0), a parsed elevation list is processed by
topoFromElevs. -/
noncomputable def calculate_real_topography (lat : ℝ) (resp : Option (List ℝ)) :
    ℤ × ℤ × ℤ :=
  match resp with
  | none => (0, 0, 0)
  | some elevs => topoFromElevs lat elevs

/-- Source get_osm_data as a function of the HTTP outcome: failure across
all endpoints yields the empty element list. -/
def get_osm_data (resp : Option (List Element)) : List Element :=
  resp.getD []

/-!
Scoring engine (calculate_score), split into its named sub-scores in the
order of the source.
-/

/-- Per-element flora weight, the if/elif chain of the flora loop. -/
def floraWeight (t : Tags) : ℕ :=
  if t.landuse = some ("forest") ∨ t.natural = some ("wood") then 5
  else if t.landuse = some ("orchard") then 4
  else if t.natural = some ("scrub") ∨ t.natural = some ("heath") ∨
      t.landuse = some ("meadow") then 2
  else if t.landuse = some ("farm") then 1
  else 0

/-- Accumulated flora_points of the source loop over the elements. -/
def floraPoints (elements : List Element) : ℕ :=
  elements.foldl (fun acc e => acc + floraWeight e.tags) 0

/-- Spec-side flora tally: the weighted hits summed over the feature
list, as stated in the scoring policy of the specification. -/
def specFloraTally (elements : List Element) : ℕ :=
  (elements.map (fun e => floraWeight e.tags)).sum

/-- final_flora: log1p compression of the tally, times 25, clamped to
[0,100], truncated to an integer. -/
noncomputable def finalFlora (elements : List Element) : ℤ :=
  pyInt (clamp (Real.log (1 + (floraPoints elements : ℝ)) * 25.0) 0 100)

/-- Elements whose natural tag is water. -/
def waterElems (elements : List Element) : List Element :=
  elements.filter (fun e => e.tags.natural = some ("water"))

/-- Coordinates of an element: direct fields, falling back (Python or,
so a zero coordinate is falsy) to the way centroid; none when either
final coordinate is missing, matching the loop's continue. -/
def elemCoord (e : Element) : Option (ℚ × ℚ) :=
  match pyOr e.lat e.centerLat, pyOr e.lon e.centerLon with
  | some a, some b => some (a, b)
  | _, _ => none

/-- min_dist of the water loop: least haversine distance to a water
element with usable coordinates, none when there is no such element. -/
noncomputable def minWaterDist (lat lng : ℝ) (elements : List Element) :
    Option ℝ :=
  ((waterElems elements).filterMap elemCoord).foldl
    (fun acc p =>
      let d := get_distance_m lat lng (p.1 : ℝ) (p.2 : ℝ)
      match acc with
      | none => some d
      | some m => some (if d < m then d else m)) none

/-- Water sub-score from the rounded nearest-water distance in meters. -/
def waterScoreOfDist (d : ℤ) : ℤ :=
  pyRound (clamp ((110.0 : ℚ) / (1.0 + (d : ℚ) / 900.0)) 0 100)

/-- d_water_m: the rounded nearest-water distance, 0 when none found. -/
noncomputable def dWaterOfOpt (m : Option ℝ) : ℤ :=
  match m with
  | none => 0
  | some d => pyRound d

/-- Water sub-score from the optional nearest-water distance: the
documented low-but-nonzero 10 when no water feature was found. -/
noncomputable def waterScoreOfOpt (m : Option ℝ) : ℤ :=
  match m with
  | none => 10
  | some d => waterScoreOfDist (pyRound d)

/-- Wind sub-score. -/
def windScore (wind : ℚ) : ℤ :=
  pyRound (clamp (100 - (wind - 12) * 6) 0 100)

/-- Humidity sub-score: 100 in the ideal band, smooth falloff outside. -/
def humScore (humidity : ℤ) : ℤ :=
  if 40 ≤ humidity ∧ humidity ≤ 70 then 100
  else pyRound (clamp (100 - |(humidity : ℚ) - 55| * 2.2) 0 100)

/-- Slope sub-score by band. -/
def slopeScore (slope : ℤ) : ℤ :=
  if 2 ≤ slope ∧ slope ≤ 10 then 100
  else if slope < 2 then 70
  else if slope ≤ 20 then 60
  else pyRound (clamp ((60 : ℚ) - ((slope : ℚ) - 20) * 2.0) 5 60)

/-- Aspect sub-score: southern band [135, 225] scores 100, else 65. -/
def aspectScore (aspect : ℤ) : ℤ :=
  if 135 ≤ aspect ∧ aspect ≤ 225 then 100 else 65

/-- Number of elements carrying a building tag. -/
def buildingCount (elements : List Element) : ℕ :=
  elements.countP (fun e => e.tags.building ≠ none)

/-- Human-pressure sub-score from building density per square km. -/
noncomputable def pressureScore (radius : ℤ) (elements : List Element) : ℤ :=
  let area_km2 : ℝ := π * ((radius : ℝ) / 1000.0) ^ 2
  let b_density : ℝ :=
    if 0 < area_km2 then (buildingCount elements : ℝ) / area_km2
    else (buildingCount elements : ℝ)
  pyRound (clamp (100 - b_density * 3.5) 0 100)

/-- Per-category breakdown of the result. -/
structure Breakdown where
  flora : ℤ
  water : ℤ
  wind : ℤ
  humidity : ℤ
  slope : ℤ
  aspect : ℤ
  pressure : ℤ

/-- Numeric explanatory details of the result (presentation-only text
fields of the source are omitted; they have no numeric effect). -/
structure Details where
  d_water : ℤ
  avg_hum : ℤ
  s_val : ℤ
  aspect_deg : ℤ
  elevation : ℤ
  b_count : ℤ
  radius_m : ℤ

/-- Analysis result: total score, breakdown, details. -/
structure ScoreResult where
  score : ℤ
  breakdown : Breakdown
  details : Details

/-- Source calculate_score: the pure scoring engine. -/
noncomputable def calculate_score (lat lng : ℝ) (radius : ℤ)
    (elements : List Element) (weather : Weather)
    (humidity slope aspect elevation : ℤ) : ScoreResult :=
  let final_flora := finalFlora elements
  let mdist := minWaterDist lat lng elements
  let d_water_m : ℤ := dWaterOfOpt mdist
  let water_score : ℤ := waterScoreOfOpt mdist
  let wind_score := windScore (weather.windspeed.getD 0)
  let hum_score := humScore humidity
  let slope_score := slopeScore slope
  let aspect_score := aspectScore aspect
  let pressure_score := pressureScore radius elements
  let total : ℝ := (final_flora : ℝ) * 0.30 + (water_score : ℝ) * 0.20 +
    (wind_score : ℝ) * 0.10 + (hum_score : ℝ) * 0.10 +
    (slope_score : ℝ) * 0.10 + (aspect_score : ℝ) * 0.10 +
    (pressure_score : ℝ) * 0.10
  let total_int := pyRound (clamp total 0 100)
  { score := total_int
    breakdown := ⟨final_flora, water_score, wind_score, hum_score,
      slope_score, aspect_score, pressure_score⟩
    details := ⟨d_water_m, humidity, slope, aspect, elevation,
      (buildingCount elements : ℤ), radius⟩ }

/-- Source analyze route body, as a function of the request payload and
of the three HTTP outcomes: parse, acquire with fallback, score.  The
only error path is the parse (the heatmap attachment is random
visualization data with no effect on the scored result and is omitted). -/
noncomputable def analyze (p : Payload) (osm : Option (List Element))
    (wx : Option WxResp) (elev : Option (List ℝ)) : Except String ScoreResult :=
  match parse_lat_lng_radius p with
  | .error e => .error e
  | .ok (lat, lng, radius) =>
      let elements := get_osm_data osm
      let wh := get_full_weather wx
      let topo := calculate_real_topography (lat : ℝ) elev
      .ok (calculate_score (lat : ℝ) (lng : ℝ) radius elements wh.1 wh.2
        topo.1 topo.2.1 topo.2.2)

section HelperLemmas

variable {α : Type} [LinearOrderedField α] [FloorRing α]

theorem clamp_le {x lo hi : α} (h : lo ≤ hi) : clamp x lo hi ≤ hi := by
  unfold clamp
  simp only [max_le_iff]
  exact ⟨h, le_trans (min_le_left _ _) le_rfl⟩

theorem le_clamp (x lo hi : α) : lo ≤ clamp x lo hi := le_max_left _ _

theorem clamp_mono {x y : α} (lo hi : α) (h : x ≤ y) :
    clamp x lo hi ≤ clamp y lo hi := by
  unfold clamp
  exact max_le_max le_rfl (min_le_min le_rfl h)

theorem clamp_eq_of_mem {x lo hi : α} (h1 : lo ≤ x) (h2 : x ≤ hi) :
    clamp x lo hi = x := by
  unfold clamp
  rw [min_eq_right h2, max_eq_right h1]

theorem floor_le_pyRound (x : α) : ⌊x⌋ ≤ pyRound x := by
  unfold pyRound
  split_ifs <;> omega

theorem pyRound_le_floor_add_one (x : α) : pyRound x ≤ ⌊x⌋ + 1 := by
  unfold pyRound
  split_ifs <;> omega

theorem le_pyRound_of_le {m : ℤ} {x : α} (h : (m : α) ≤ x) : m ≤ pyRound x :=
  le_trans (Int.le_floor.mpr h) (floor_le_pyRound x)

theorem pyRound_le_of_le {n : ℤ} {x : α} (h : x ≤ (n : α)) : pyRound x ≤ n := by
  unfold pyRound
  have hfl : ⌊x⌋ ≤ n := Int.floor_le_floor h |>.trans_eq (Int.floor_intCast n)
  split_ifs with h1 h2 h3
  · exact hfl
  · -- x is strictly above its floor, so the floor is strictly below n
    have hx : (⌊x⌋ : α) < x := by linarith
    have : ⌊x⌋ < n := by
      rcases lt_or_eq_of_le hfl with h' | h'
      · exact h'
      · exfalso
        rw [h'] at hx
        linarith
    omega
  · exact hfl
  · have hx : (⌊x⌋ : α) < x := by linarith
    have : ⌊x⌋ < n := by
      rcases lt_or_eq_of_le hfl with h' | h'
      · exact h'
      · exfalso
        rw [h'] at hx
        linarith
    omega

theorem pyRound_mono {x y : α} (h : x ≤ y) : pyRound x ≤ pyRound y := by
  rcases lt_or_eq_of_le (Int.floor_le_floor h) with hf | hf
  · calc pyRound x ≤ ⌊x⌋ + 1 := pyRound_le_floor_add_one x
      _ ≤ ⌊y⌋ := hf
      _ ≤ pyRound y := floor_le_pyRound y
  · unfold pyRound
    rw [hf]
    have hr : x - ⌊y⌋ ≤ y - ⌊y⌋ := by linarith
    split_ifs <;> first | omega | linarith

theorem pyRound_intCast (n : ℤ) : pyRound (n : α) = n := by
  unfold pyRound
  rw [Int.floor_intCast]
  split_ifs <;> simp_all <;> linarith

theorem pyInt_nonneg_eq_floor {x : α} (h : 0 ≤ x) : pyInt x = ⌊x⌋ := by
  unfold pyInt
  rw [if_neg (not_lt.mpr h)]

theorem pyInt_le_of_le {n : ℤ} {x : α} (h0 : 0 ≤ x) (h : x ≤ (n : α)) :
    pyInt x ≤ n := by
  rw [pyInt_nonneg_eq_floor h0]
  exact Int.floor_le_floor h |>.trans_eq (Int.floor_intCast n)

theorem le_pyInt_of_le {m : ℤ} {x : α} (h0 : 0 ≤ x) (h : (m : α) ≤ x) :
    m ≤ pyInt x := by
  rw [pyInt_nonneg_eq_floor h0]
  exact Int.le_floor.mpr h

theorem pyInt_intCast (n : ℤ) : pyInt (n : α) = n := by
  unfold pyInt
  split_ifs <;> simp

end HelperLemmas

theorem pymod_nonneg (x : ℝ) {m : ℝ} (hm : 0 < m) : 0 ≤ pymod x m := by
  unfold pymod
  have h := Int.floor_le (x / m)
  have : m * ⌊x / m⌋ ≤ m * (x / m) := by
    exact mul_le_mul_of_nonneg_left h (le_of_lt hm)
  have hx : m * (x / m) = x := by
    field_simp
  linarith

theorem pymod_lt (x : ℝ) {m : ℝ} (hm : 0 < m) : pymod x m < m := by
  unfold pymod
  have h := Int.lt_floor_add_one (x / m)
  have : m * (x / m) < m * (⌊x / m⌋ + 1) := mul_lt_mul_of_pos_left h hm
  have hx : m * (x / m) = x := by
    field_simp
  nlinarith

/-!
Evaluation and bounding lemmas for the helpers.
-/

section EvalLemmas

variable {α : Type} [LinearOrderedField α] [FloorRing α] {x : α}

theorem pyRound_eq_of_lt_half {n : ℤ} (h1 : (n : α) ≤ x) (h2 : x < n + 1/2) :
    pyRound x = n := by
  have hfl : ⌊x⌋ = n := by
    rw [Int.floor_eq_iff]
    refine ⟨h1, ?_⟩
    push_cast
    linarith
  unfold pyRound
  rw [hfl, if_pos]
  rw [hfl] at *
  linarith

theorem pyRound_eq_of_gt_half {n : ℤ} (h1 : (n : α) + 1/2 < x) (h2 : x < n + 1) :
    pyRound x = n + 1 := by
  have hfl : ⌊x⌋ = n := by
    rw [Int.floor_eq_iff]
    constructor
    · linarith
    · push_cast
      linarith
  unfold pyRound
  rw [hfl, if_neg (by linarith), if_pos (by linarith)]

theorem pyRound_clamp_mem_0_100 (x : α) :
    0 ≤ pyRound (clamp x 0 100) ∧ pyRound (clamp x 0 100) ≤ 100 := by
  constructor
  · apply le_pyRound_of_le
    push_cast
    exact le_clamp x 0 100
  · apply pyRound_le_of_le
    push_cast
    exact clamp_le (by norm_num)

theorem pyRound_clamp_mem_5_60 (x : α) :
    5 ≤ pyRound (clamp x 5 60) ∧ pyRound (clamp x 5 60) ≤ 60 := by
  constructor
  · apply le_pyRound_of_le
    push_cast
    exact le_clamp x 5 60
  · apply pyRound_le_of_le
    push_cast
    exact clamp_le (by norm_num)

theorem pyInt_clamp_mem_0_100 (x : α) :
    0 ≤ pyInt (clamp x 0 100) ∧ pyInt (clamp x 0 100) ≤ 100 := by
  have h0 : (0 : α) ≤ clamp x 0 100 := le_clamp x 0 100
  constructor
  · apply le_pyInt_of_le h0
    push_cast
    exact h0
  · apply pyInt_le_of_le h0
    push_cast
    exact clamp_le (by norm_num)

end EvalLemmas

theorem arctan_pos_of_pos {x : ℝ} (h : 0 < x) : 0 < Real.arctan x := by
  have := Real.arctan_strictMono h
  rwa [Real.arctan_zero] at this

theorem arctan_lt_self_of_pos {x : ℝ} (h : 0 < x) : Real.arctan x < x := by
  have h1 : 0 < Real.arctan x := arctan_pos_of_pos h
  have h2 : Real.arctan x < π / 2 := Real.arctan_lt_pi_div_two x
  have h3 := Real.lt_tan h1 h2
  rwa [Real.tan_arctan] at h3

/-!
Claim theorems.
-/

/-- C9: TTL cache contract.  After a set of a key, a get at a time no
later than the stored expiry returns the value of that last set and the
cache unchanged; a get strictly after the expiry reports absent and
removes the entry from the store — lazy eviction on read. -/
theorem C9_ttl_cache_contract {β : Type} (c : TTLCache β) (now : ℚ)
    (key : String) (v : β) (t : ℚ) :
    (t ≤ now + c.ttl →
      (c.set now key v).get t key = (some v, c.set now key v)) ∧
    (now + c.ttl < t →
      ((c.set now key v).get t key).1 = none ∧
      (((c.set now key v).get t key).2).store key = none) := by
  constructor
  · intro h
    simp [TTLCache.get, TTLCache.set, not_lt.mpr h]
  · intro h
    simp [TTLCache.get, TTLCache.set, h]

/-- C9 witness: a concrete cache with TTL 300 set at time 0; a read at
time 100 returns the stored value, a read at time 400 reports absent. -/
theorem C9_ttl_cache_contract_witness :
    ((({ ttl := 300, store := fun _ => none } : TTLCache ℕ).set 0 ("k") 7).get 100 ("k")
      = (some 7, ({ ttl := 300, store := fun _ => none } : TTLCache ℕ).set 0 ("k") 7)) ∧
    (((({ ttl := 300, store := fun _ => none } : TTLCache ℕ).set 0 ("k") 7).get 400 ("k")).1
      = none) :=
  ⟨(C9_ttl_cache_contract { ttl := 300, store := fun _ => none } 0 ("k") 7 100).1
      (by norm_num),
   ((C9_ttl_cache_contract { ttl := 300, store := fun _ => none } 0 ("k") 7 400).2
      (by norm_num)).1⟩

theorem pyInt_q_2000 : pyInt (2000 : ℚ) = 2000 := by
  rw [show (2000 : ℚ) = ((2000 : ℤ) : ℚ) by norm_num, pyInt_intCast]

/-- C10: a payload with valid lat and lng and no radius key parses with
the default radius 2000; any supplied numeric radius is truncated to an
integer and clamped into [250, 10000], never rejected. -/
theorem C10_radius_default_and_clamp (a b : ℚ)
    (ha1 : -90 ≤ a) (ha2 : a ≤ 90) (hb1 : -180 ≤ b) (hb2 : b ≤ 180) :
    parse_lat_lng_radius ⟨some a, some b, none⟩ = .ok (a, b, 2000) ∧
    (∀ r : ℚ, parse_lat_lng_radius ⟨some a, some b, some r⟩ =
        .ok (a, b, max 250 (min 10000 (pyInt r))) ∧
      250 ≤ max 250 (min 10000 (pyInt r)) ∧
      max 250 (min 10000 (pyInt r)) ≤ 10000) := by
  constructor
  · simp only [parse_lat_lng_radius, Option.getD, pyInt_q_2000]
    rw [if_neg (by push_neg; exact ⟨ha1, ha2⟩), if_neg (by push_neg; exact ⟨hb1, hb2⟩)]
    norm_num
  · intro r
    refine ⟨?_, le_max_left _ _, max_le (by norm_num) ((min_le_left _ _))⟩
    simp only [parse_lat_lng_radius, Option.getD]
    rw [if_neg (by push_neg; exact ⟨ha1, ha2⟩), if_neg (by push_neg; exact ⟨hb1, hb2⟩)]

/-- C10 witness: the payload (lat 41, lng 29, no radius) parses to the
default radius 2000, and a supplied radius of 50000 is accepted. -/
theorem C10_radius_default_and_clamp_witness :
    parse_lat_lng_radius ⟨some 41, some 29, none⟩ = .ok (41, 29, 2000) ∧
    parse_lat_lng_radius ⟨some 41, some 29, some 50000⟩ =
      .ok (41, 29, max 250 (min 10000 (pyInt (50000 : ℚ)))) :=
  ⟨(C10_radius_default_and_clamp 41 29 (by norm_num) (by norm_num) (by norm_num)
      (by norm_num)).1,
   ((C10_radius_default_and_clamp 41 29 (by norm_num) (by norm_num) (by norm_num)
      (by norm_num)).2 50000).1⟩

theorem fmt5_4e6 : fmt5 (0.000004 : ℚ) = (false, 0) := by
  unfold fmt5
  rw [if_neg (by norm_num)]
  rw [show |(0.000004 : ℚ)| = 0.000004 from abs_of_nonneg (by norm_num)]
  rw [show (0.000004 : ℚ) * 100000 = 0.4 by norm_num]
  rw [show pyRound ((0.4 : ℚ)) = 0 from
    pyRound_eq_of_lt_half (by norm_num) (by norm_num)]

theorem fmt5_6e6 : fmt5 (0.000006 : ℚ) = (false, 1) := by
  unfold fmt5
  rw [if_neg (by norm_num)]
  rw [show |(0.000006 : ℚ)| = 0.000006 from abs_of_nonneg (by norm_num)]
  rw [show (0.000006 : ℚ) * 100000 = 0.6 by norm_num]
  rw [show pyRound ((0.6 : ℚ)) = 0 + 1 from
    pyRound_eq_of_gt_half (by norm_num) (by norm_num)]
  norm_num

theorem fmt5_1e6 : fmt5 (0.000001 : ℚ) = (false, 0) := by
  unfold fmt5
  rw [if_neg (by norm_num)]
  rw [show |(0.000001 : ℚ)| = 0.000001 from abs_of_nonneg (by norm_num)]
  rw [show (0.000001 : ℚ) * 100000 = 0.1 by norm_num]
  rw [show pyRound ((0.1 : ℚ)) = 0 from
    pyRound_eq_of_lt_half (by norm_num) (by norm_num)]

theorem fmt5_neg1e6 : fmt5 ((-0.000001) : ℚ) = (true, 0) := by
  unfold fmt5
  rw [if_pos (by norm_num)]
  rw [show |((-0.000001) : ℚ)| = 0.000001 by
    rw [abs_of_nonpos (by norm_num)]; norm_num]
  rw [show (0.000001 : ℚ) * 100000 = 0.1 by norm_num]
  rw [show pyRound ((0.1 : ℚ)) = 0 from
    pyRound_eq_of_lt_half (by norm_num) (by norm_num)]

/-- C5 counterexample: 0.000004 and 0.000006 agree on the first five
decimals (their scaled floors agree) and differ only in the sixth
decimal digit, yet the five-decimal rounding of the key format sends
them to different cache keys in every data source; likewise -0.000001
and 0.000001 differ only in the sixth decimal (via a sign flip) and get
different keys, because the format keeps the sign marker. -/
theorem C5_counterexample :
    ⌊(0.000004 : ℚ) * 100000⌋ = ⌊(0.000006 : ℚ) * 100000⌋ ∧
    osmCacheKey 0.000004 0 2000 ≠ osmCacheKey 0.000006 0 2000 ∧
    wxCacheKey 0.000004 0 ≠ wxCacheKey 0.000006 0 ∧
    elevCacheKey 0.000004 0 ≠ elevCacheKey 0.000006 0 ∧
    osmCacheKey (-0.000001) 0 2000 ≠ osmCacheKey 0.000001 0 2000 ∧
    wxCacheKey (-0.000001) 0 ≠ wxCacheKey 0.000001 0 ∧
    elevCacheKey (-0.000001) 0 ≠ elevCacheKey 0.000001 0 := by
  refine ⟨?_, ?_, ?_, ?_, ?_, ?_, ?_⟩
  · rw [show (0.000004 : ℚ) * 100000 = 0.4 by norm_num,
      show (0.000006 : ℚ) * 100000 = 0.6 by norm_num]
    rw [show ⌊(0.4 : ℚ)⌋ = 0 by rw [Int.floor_eq_iff]; norm_num]
    rw [show ⌊(0.6 : ℚ)⌋ = 0 by rw [Int.floor_eq_iff]; norm_num]
  · simp [osmCacheKey, fmt5_4e6, fmt5_6e6]
  · simp [wxCacheKey, fmt5_4e6, fmt5_6e6]
  · simp [elevCacheKey, fmt5_4e6, fmt5_6e6]
  · simp [osmCacheKey, fmt5_neg1e6, fmt5_1e6]
  · simp [wxCacheKey, fmt5_neg1e6, fmt5_1e6]
  · simp [elevCacheKey, fmt5_neg1e6, fmt5_1e6]

/-- C5 corrected: each cache key consists of the source prefix, the
formatted five-decimal fields of the two coordinates — the sign marker
together with the rounded magnitude — and, for the land-cover source,
the radius; two requests share a source's key exactly when both
formatted fields coincide.  A sixth-decimal difference can change the
key either by crossing a rounding boundary or by flipping the sign of a
near-zero coordinate. -/
theorem C5_keys_from_formatted_fields (lat1 lat2 lng1 lng2 : ℚ) (radius : ℤ) :
    (osmCacheKey lat1 lng1 radius = osmCacheKey lat2 lng2 radius ↔
      fmt5 lat1 = fmt5 lat2 ∧ fmt5 lng1 = fmt5 lng2) ∧
    (wxCacheKey lat1 lng1 = wxCacheKey lat2 lng2 ↔
      fmt5 lat1 = fmt5 lat2 ∧ fmt5 lng1 = fmt5 lng2) ∧
    (elevCacheKey lat1 lng1 = elevCacheKey lat2 lng2 ↔
      fmt5 lat1 = fmt5 lat2 ∧ fmt5 lng1 = fmt5 lng2) := by
  refine ⟨?_, ?_, ?_⟩ <;>
    simp [osmCacheKey, wxCacheKey, elevCacheKey, Prod.ext_iff]

/-!
Flora (C6).
-/

theorem foldl_floraWeight (l : List Element) (acc : ℕ) :
    l.foldl (fun a e => a + floraWeight e.tags) acc = acc + specFloraTally l := by
  induction l generalizing acc with
  | nil => simp [specFloraTally]
  | cons e t ih =>
      simp only [List.foldl_cons, specFloraTally, List.map_cons, List.sum_cons, ih]
      omega

theorem floraPoints_eq_specTally (elements : List Element) :
    floraPoints elements = specFloraTally elements := by
  unfold floraPoints
  rw [foldl_floraWeight]
  omega

theorem finalFlora_of_points_zero {elements : List Element}
    (h : floraPoints elements = 0) : finalFlora elements = 0 := by
  unfold finalFlora
  rw [h]
  have h1 : Real.log (1 + ((0 : ℕ) : ℝ)) * 25.0 = 0 := by
    norm_num
  rw [h1]
  rw [clamp_eq_of_mem le_rfl (by norm_num)]
  unfold pyInt
  rw [if_neg (by norm_num)]
  exact Int.floor_zero

/-- C6: in the scoring engine the flora category score equals the
log1p compression clamp(log(1 + S) * 25, 0, 100) truncated to an
integer, where S is the weighted tally of feature hits (forest/wood 5,
orchard 4, scrub/heath/meadow 2, farm land-use 1); with zero matching
features the flora score is 0. -/
theorem C6_flora_formula :
    (∀ (lat lng : ℝ) (radius : ℤ) (elements : List Element)
        (weather : Weather) (humidity slope aspect elevation : ℤ),
      (calculate_score lat lng radius elements weather humidity slope aspect
          elevation).breakdown.flora = finalFlora elements) ∧
    (∀ elements : List Element, finalFlora elements =
      pyInt (clamp (Real.log (1 + (specFloraTally elements : ℝ)) * 25.0) 0 100)) ∧
    (∀ elements : List Element, specFloraTally elements = 0 →
      finalFlora elements = 0) ∧
    finalFlora [] = 0 := by
  refine ⟨fun _ _ _ _ _ _ _ _ _ => rfl, ?_, ?_, ?_⟩
  · intro elements
    unfold finalFlora
    rw [floraPoints_eq_specTally]
  · intro elements h
    exact finalFlora_of_points_zero (by rw [floraPoints_eq_specTally, h])
  · exact finalFlora_of_points_zero rfl

/-- C6 witness: the empty feature list has tally 0 and flora score 0. -/
theorem C6_flora_formula_witness : finalFlora [] = 0 :=
  C6_flora_formula.2.2.1 [] rfl

/-!
Water (C7).
-/

theorem waterScoreOfDist_0 : waterScoreOfDist 0 = 100 := by
  unfold waterScoreOfDist
  rw [show (110.0 : ℚ) / (1.0 + ((0 : ℤ) : ℚ) / 900.0) = 110 by norm_num]
  rw [show clamp (110 : ℚ) 0 100 = 100 by
    unfold clamp; rw [min_eq_left (by norm_num), max_eq_right (by norm_num)]]
  exact pyRound_eq_of_lt_half (by norm_num) (by norm_num)

theorem waterScoreOfDist_5000 : waterScoreOfDist 5000 = 17 := by
  unfold waterScoreOfDist
  rw [show (110.0 : ℚ) / (1.0 + ((5000 : ℤ) : ℚ) / 900.0) = 990 / 59 by norm_num]
  rw [clamp_eq_of_mem (by norm_num) (by norm_num)]
  rw [show (17 : ℤ) = 16 + 1 by norm_num]
  exact pyRound_eq_of_gt_half (by norm_num) (by norm_num)

theorem waterScoreOfDist_9000 : waterScoreOfDist 9000 = 10 := by
  unfold waterScoreOfDist
  rw [show (110.0 : ℚ) / (1.0 + ((9000 : ℤ) : ℚ) / 900.0) = 10 by norm_num]
  rw [clamp_eq_of_mem (by norm_num) (by norm_num)]
  exact pyRound_eq_of_lt_half (by norm_num) (by norm_num)

/-- C7 counterexample: at the claimed reference distance of 5000 m the
water score is 17, which is not approximately 10 — it misses the claimed
value by 7 points on the 0-100 scale. -/
theorem C7_counterexample :
    waterScoreOfDist 5000 = 17 ∧ 7 ≤ |waterScoreOfDist 5000 - 10| := by
  refine ⟨waterScoreOfDist_5000, ?_⟩
  rw [waterScoreOfDist_5000]
  norm_num

/-- C7 corrected: the water score is 10 when no water feature is found,
otherwise the clamped smooth decay of the rounded nearest-water
distance; it is monotonically non-increasing in that distance, with
value 100 at 0 m, 17 at 5000 m, and reaching 10 at 9000 m. -/
theorem C7_water_policy :
    (∀ (lat lng : ℝ) (radius : ℤ) (elements : List Element)
        (weather : Weather) (humidity slope aspect elevation : ℤ),
      (calculate_score lat lng radius elements weather humidity slope aspect
          elevation).breakdown.water =
        waterScoreOfOpt (minWaterDist lat lng elements)) ∧
    waterScoreOfOpt none = 10 ∧
    (∀ d : ℝ, waterScoreOfOpt (some d) = waterScoreOfDist (pyRound d)) ∧
    (∀ d1 d2 : ℤ, 0 ≤ d1 → d1 ≤ d2 →
      waterScoreOfDist d2 ≤ waterScoreOfDist d1) ∧
    waterScoreOfDist 0 = 100 ∧ waterScoreOfDist 5000 = 17 ∧
    waterScoreOfDist 9000 = 10 := by
  refine ⟨fun _ _ _ _ _ _ _ _ _ => rfl, rfl, fun _ => rfl, ?_, waterScoreOfDist_0,
    waterScoreOfDist_5000, waterScoreOfDist_9000⟩
  intro d1 d2 h0 h12
  unfold waterScoreOfDist
  apply pyRound_mono
  apply clamp_mono
  have hd1 : (0 : ℚ) ≤ (d1 : ℚ) := by exact_mod_cast h0
  have hd12 : (d1 : ℚ) ≤ (d2 : ℚ) := by exact_mod_cast h12
  have hb : (0 : ℚ) < 1.0 + (d1 : ℚ) / 900.0 := by linarith
  have hc : (1.0 : ℚ) + (d1 : ℚ) / 900.0 ≤ 1.0 + (d2 : ℚ) / 900.0 := by linarith
  exact div_le_div_of_nonneg_left (by norm_num) hb hc

/-- C7 witness: the monotonicity applied at 100 m and 200 m. -/
theorem C7_water_policy_witness :
    waterScoreOfDist 200 ≤ waterScoreOfDist 100 :=
  C7_water_policy.2.2.2.1 100 200 (by norm_num) (by norm_num)

/-!
Humidity selection (C8).
-/

/-- C8: for a weather response with a current timestamp and equal-length
nonempty hourly arrays, an exact timestamp match selects the humidity at
the first matching index, otherwise the first hourly humidity is used;
either way the result is clamped to [0, 100]. -/
theorem C8_humidity_selection (cur : Weather) (times : List String)
    (hums : List ℚ) (t : String) (ht : cur.time = some t) (hne : t ≠ "")
    (h1 : times ≠ []) (h2 : hums ≠ []) (hlen : times.length = hums.length) :
    (t ∈ times →
      get_full_weather (some ⟨cur, times, hums⟩) =
        (cur, max 0 (min 100 (pyInt (hums.getD (times.indexOf t) 0))))) ∧
    (t ∉ times →
      get_full_weather (some ⟨cur, times, hums⟩) =
        (cur, max 0 (min 100 (pyInt (hums.getD 0 0))))) := by
  unfold get_full_weather weatherHumidityPick
  simp only [ht]
  rw [if_pos ⟨hne, h1, h2, hlen⟩]
  constructor
  · intro hmem
    rw [if_pos hmem]
  · intro hmem
    rw [if_neg hmem]

/-- C8 witness: a concrete response whose current time matches the
second hourly slot selects that slot's humidity, clamped. -/
theorem C8_humidity_selection_witness :
    get_full_weather (some ⟨⟨some 20, some 10, some ("b")⟩, ["a", "b"], [80, 64]⟩) =
      (⟨some 20, some 10, some ("b")⟩,
        max 0 (min 100 (pyInt (([80, 64] : List ℚ).getD
          ((["a", "b"] : List String).indexOf ("b")) 0)))) :=
  (C8_humidity_selection ⟨some 20, some 10, some ("b")⟩ ["a", "b"] [80, 64] ("b")
    rfl (by simp) (by simp) (by simp) (by simp)).1 (by simp)

/-!
Score bounds (C1).
-/

theorem finalFlora_mem (elements : List Element) :
    0 ≤ finalFlora elements ∧ finalFlora elements ≤ 100 :=
  pyInt_clamp_mem_0_100 _

theorem waterScoreOfDist_mem (d : ℤ) :
    0 ≤ waterScoreOfDist d ∧ waterScoreOfDist d ≤ 100 :=
  pyRound_clamp_mem_0_100 _

theorem waterScoreOfOpt_mem (m : Option ℝ) :
    0 ≤ waterScoreOfOpt m ∧ waterScoreOfOpt m ≤ 100 := by
  cases m with
  | none => exact ⟨by norm_num [waterScoreOfOpt], by norm_num [waterScoreOfOpt]⟩
  | some d => exact waterScoreOfDist_mem _

theorem windScore_mem (wind : ℚ) :
    0 ≤ windScore wind ∧ windScore wind ≤ 100 :=
  pyRound_clamp_mem_0_100 _

theorem humScore_mem (humidity : ℤ) :
    0 ≤ humScore humidity ∧ humScore humidity ≤ 100 := by
  unfold humScore
  split_ifs
  · norm_num
  · exact pyRound_clamp_mem_0_100 _

theorem slopeScore_mem (slope : ℤ) :
    0 ≤ slopeScore slope ∧ slopeScore slope ≤ 100 := by
  unfold slopeScore
  split_ifs
  · norm_num
  · norm_num
  · norm_num
  · have h := pyRound_clamp_mem_5_60 ((60 : ℚ) - ((slope : ℚ) - 20) * 2.0)
    omega

theorem aspectScore_mem (aspect : ℤ) :
    0 ≤ aspectScore aspect ∧ aspectScore aspect ≤ 100 := by
  unfold aspectScore
  split_ifs <;> norm_num

theorem pressureScore_mem (radius : ℤ) (elements : List Element) :
    0 ≤ pressureScore radius elements ∧ pressureScore radius elements ≤ 100 :=
  pyRound_clamp_mem_0_100 _

/-- C1: for every input to the scoring engine — any coordinates, radius,
feature list, weather record, humidity, slope, aspect and elevation —
the total score is an integer in [0, 100] and each of the seven
breakdown categories (flora, water, wind, humidity, slope, aspect,
pressure) is in [0, 100]. -/
theorem C1_score_and_breakdown_bounds (lat lng : ℝ) (radius : ℤ)
    (elements : List Element) (weather : Weather)
    (humidity slope aspect elevation : ℤ) :
    (0 ≤ (calculate_score lat lng radius elements weather humidity slope
        aspect elevation).score ∧
      (calculate_score lat lng radius elements weather humidity slope
        aspect elevation).score ≤ 100) ∧
    (0 ≤ (calculate_score lat lng radius elements weather humidity slope
        aspect elevation).breakdown.flora ∧
      (calculate_score lat lng radius elements weather humidity slope
        aspect elevation).breakdown.flora ≤ 100) ∧
    (0 ≤ (calculate_score lat lng radius elements weather humidity slope
        aspect elevation).breakdown.water ∧
      (calculate_score lat lng radius elements weather humidity slope
        aspect elevation).breakdown.water ≤ 100) ∧
    (0 ≤ (calculate_score lat lng radius elements weather humidity slope
        aspect elevation).breakdown.wind ∧
      (calculate_score lat lng radius elements weather humidity slope
        aspect elevation).breakdown.wind ≤ 100) ∧
    (0 ≤ (calculate_score lat lng radius elements weather humidity slope
        aspect elevation).breakdown.humidity ∧
      (calculate_score lat lng radius elements weather humidity slope
        aspect elevation).breakdown.humidity ≤ 100) ∧
    (0 ≤ (calculate_score lat lng radius elements weather humidity slope
        aspect elevation).breakdown.slope ∧
      (calculate_score lat lng radius elements weather humidity slope
        aspect elevation).breakdown.slope ≤ 100) ∧
    (0 ≤ (calculate_score lat lng radius elements weather humidity slope
        aspect elevation).breakdown.aspect ∧
      (calculate_score lat lng radius elements weather humidity slope
        aspect elevation).breakdown.aspect ≤ 100) ∧
    (0 ≤ (calculate_score lat lng radius elements weather humidity slope
        aspect elevation).breakdown.pressure ∧
      (calculate_score lat lng radius elements weather humidity slope
        aspect elevation).breakdown.pressure ≤ 100) :=
  ⟨pyRound_clamp_mem_0_100 _, finalFlora_mem _, waterScoreOfOpt_mem _,
    windScore_mem _, humScore_mem _, slopeScore_mem _, aspectScore_mem _,
    pressureScore_mem _ _⟩

/-!
Graceful degradation of analyze (C2).
-/

/-- C2: for every payload that parses, analyze succeeds for every
combination of source outcomes; with an empty land-cover response and
failed weather/elevation sources it returns the fully defaulted result:
humidity 50, slope 0, aspect 0, elevation 0, flora score 0 and water
score 10. -/
theorem C2_graceful_defaults (p : Payload) (lat lng : ℚ) (radius : ℤ)
    (h : parse_lat_lng_radius p = .ok (lat, lng, radius)) :
    (∀ osm wx elev, ∃ r, analyze p osm wx elev = .ok r) ∧
    analyze p none none none = .ok (calculate_score (lat : ℝ) (lng : ℝ)
      radius [] ⟨none, none, none⟩ 50 0 0 0) ∧
    (calculate_score (lat : ℝ) (lng : ℝ) radius [] ⟨none, none, none⟩
      50 0 0 0).breakdown.flora = 0 ∧
    (calculate_score (lat : ℝ) (lng : ℝ) radius [] ⟨none, none, none⟩
      50 0 0 0).breakdown.water = 10 ∧
    (calculate_score (lat : ℝ) (lng : ℝ) radius [] ⟨none, none, none⟩
      50 0 0 0).details.avg_hum = 50 ∧
    (calculate_score (lat : ℝ) (lng : ℝ) radius [] ⟨none, none, none⟩
      50 0 0 0).details.s_val = 0 ∧
    (calculate_score (lat : ℝ) (lng : ℝ) radius [] ⟨none, none, none⟩
      50 0 0 0).details.aspect_deg = 0 ∧
    (calculate_score (lat : ℝ) (lng : ℝ) radius [] ⟨none, none, none⟩
      50 0 0 0).details.elevation = 0 := by
  refine ⟨?_, ?_, ?_, rfl, rfl, rfl, rfl, rfl⟩
  · intro osm wx elev
    unfold analyze
    rw [h]
    exact ⟨_, rfl⟩
  · unfold analyze
    rw [h]
    rfl
  · show finalFlora [] = 0
    exact finalFlora_of_points_zero rfl

/-- C2 witness: the payload (lat 41, lng 29) with all three sources
failed yields the defaulted result. -/
theorem C2_graceful_defaults_witness :
    analyze ⟨some 41, some 29, none⟩ none none none =
      .ok (calculate_score ((41 : ℚ) : ℝ) ((29 : ℚ) : ℝ) 2000 []
        ⟨none, none, none⟩ 50 0 0 0) ∧
    (calculate_score ((41 : ℚ) : ℝ) ((29 : ℚ) : ℝ) 2000 []
      ⟨none, none, none⟩ 50 0 0 0).breakdown.flora = 0 ∧
    (calculate_score ((41 : ℚ) : ℝ) ((29 : ℚ) : ℝ) 2000 []
      ⟨none, none, none⟩ 50 0 0 0).breakdown.water = 10 ∧
    (calculate_score ((41 : ℚ) : ℝ) ((29 : ℚ) : ℝ) 2000 []
      ⟨none, none, none⟩ 50 0 0 0).details.avg_hum = 50 := by
  have h := C2_graceful_defaults ⟨some 41, some 29, none⟩ 41 29 2000 (by
    simp only [parse_lat_lng_radius, Option.getD, pyInt_q_2000]
    norm_num)
  exact ⟨h.2.1, h.2.2.1, h.2.2.2.1, h.2.2.2.2.1⟩

/-!
Terrain derivation (C3, C4).
-/

theorem dyM_val : dyM = 111.32 := by
  unfold dyM meters_per_deg_lat
  norm_num

theorem dxM_0 : dxM 0 = 111.32 := by
  unfold dxM meters_per_deg_lon
  rw [show (0 : ℝ) * π / 180 = 0 by ring, Real.cos_zero]
  norm_num

theorem dxM_90 : dxM 90 = 0 := by
  unfold dxM meters_per_deg_lon
  rw [show (90 : ℝ) * π / 180 = π / 2 by ring, Real.cos_pi_div_two]
  ring

theorem topoFromElevs_short (lat : ℝ) {elevs : List ℝ}
    (h : elevs.length < 3) : topoFromElevs lat elevs = (0, 0, 0) := by
  unfold topoFromElevs
  rw [if_pos h]

theorem topoFromElevs_degenerate (lat h0 hN hE : ℝ) (rest : List ℝ)
    (hd : dxM lat ≤ 1e-6 ∨ dyM ≤ 1e-6) :
    topoFromElevs lat (h0 :: hN :: hE :: rest) = (0, 0, pyInt h0) := by
  unfold topoFromElevs
  rw [if_neg (by simp)]
  simp only [List.getD_cons_zero, List.getD_cons_succ]
  rw [if_pos hd]

theorem topoFromElevs_main (lat h0 hN hE : ℝ) (rest : List ℝ)
    (hd : ¬(dxM lat ≤ 1e-6 ∨ dyM ≤ 1e-6)) :
    topoFromElevs lat (h0 :: hN :: hE :: rest) =
      (pyRound (clamp (Real.tan (Real.arctan (Real.sqrt
          (((hE - h0) / dxM lat) ^ 2 + ((hN - h0) / dyM) ^ 2))) * 100.0) 0 200),
       pyRound (pymod (atan2 (-((hE - h0) / dxM lat)) (-((hN - h0) / dyM))
          * 180 / π + 360.0) 360.0),
       pyRound h0) := by
  unfold topoFromElevs
  rw [if_neg (by simp)]
  simp only [List.getD_cons_zero, List.getD_cons_succ]
  rw [if_neg hd]

theorem topoFromElevs_aspect (lat h0 hN hE : ℝ) (rest : List ℝ)
    (hd : ¬(dxM lat ≤ 1e-6 ∨ dyM ≤ 1e-6)) :
    (topoFromElevs lat (h0 :: hN :: hE :: rest)).2.1 =
      pyRound (pymod (atan2 (-((hE - h0) / dxM lat)) (-((hN - h0) / dyM))
        * 180 / π + 360.0) 360.0) := by
  rw [topoFromElevs_main lat h0 hN hE rest hd]

/-- C3 counterexample: at latitude 90 the eastward reference distance is
0 (degenerate), and with elevation samples [100, 0, 0] the terrain source
returns (0, 0, 100) — the center elevation — not (0, 0, 0). -/
theorem C3_counterexample :
    topoFromElevs 90 [100, 0, 0] = (0, 0, 100) ∧
    topoFromElevs 90 [100, 0, 0] ≠ (0, 0, 0) := by
  have h : topoFromElevs 90 [100, 0, 0] = (0, 0, pyInt (100 : ℝ)) :=
    topoFromElevs_degenerate 90 100 0 0 [] (Or.inl (by rw [dxM_90]; norm_num))
  have h100 : pyInt ((100 : ℝ)) = 100 := by
    rw [show (100 : ℝ) = ((100 : ℤ) : ℝ) by norm_num, pyInt_intCast]
  rw [h, h100]
  exact ⟨rfl, by decide⟩

/-- C3 corrected: with fewer than three elevation samples the terrain
source returns (slope 0, aspect 0, elevation 0); with three samples but a
near-zero horizontal reference distance it returns slope 0 and aspect 0
together with the truncated center elevation — not elevation 0. -/
theorem C3_degenerate_fallbacks (lat : ℝ) (elevs : List ℝ)
    (h0 hN hE : ℝ) (rest : List ℝ) :
    (elevs.length < 3 → topoFromElevs lat elevs = (0, 0, 0)) ∧
    ((dxM lat ≤ 1e-6 ∨ dyM ≤ 1e-6) →
      topoFromElevs lat (h0 :: hN :: hE :: rest) = (0, 0, pyInt h0)) :=
  ⟨fun h => topoFromElevs_short lat h,
   fun hd => topoFromElevs_degenerate lat h0 hN hE rest hd⟩

/-- C3 witness: the empty sample list gives (0, 0, 0); at latitude 90
with samples [100, 0, 0] the degenerate branch gives the truncated
center elevation. -/
theorem C3_degenerate_fallbacks_witness :
    topoFromElevs 0 [] = (0, 0, 0) ∧
    topoFromElevs 90 [100, 0, 0] = (0, 0, pyInt (100 : ℝ)) :=
  ⟨(C3_degenerate_fallbacks 0 [] 0 0 0 []).1 (by norm_num),
   (C3_degenerate_fallbacks 90 [] 100 0 0 []).2
     (Or.inl (by rw [dxM_90]; norm_num))⟩

/-- C4 counterexample: at latitude 0 with samples [0, -111.32, 0.11132]
the gradient is (0.001 east, -1 north), the real-valued aspect is just
below 360 degrees, and rounding returns the integer 360 — not strictly
less than 360. -/
theorem C4_counterexample :
    (topoFromElevs 0 [0, -111.32, 0.11132]).2.1 = 360 ∧
    ¬((topoFromElevs 0 [0, -111.32, 0.11132]).2.1 < 360) := by
  have hd : ¬(dxM 0 ≤ 1e-6 ∨ dyM ≤ 1e-6) := by
    push_neg
    exact ⟨by rw [dxM_0]; norm_num, by rw [dyM_val]; norm_num⟩
  have key : (topoFromElevs 0 [0, -111.32, 0.11132]).2.1 = 360 := by
    rw [topoFromElevs_aspect 0 0 (-111.32) 0.11132 [] hd]
    have e1 : -(((0.11132 : ℝ) - 0) / dxM 0) = -0.001 := by
      rw [dxM_0]
      norm_num
    have e2 : -((((-111.32) : ℝ) - 0) / dyM) = 1 := by
      rw [dyM_val]
      norm_num
    rw [e1, e2, show (360.0 : ℝ) = 360 by norm_num]
    have hat : atan2 (-0.001) 1 = Real.arctan (-0.001) := by
      unfold atan2
      rw [if_pos (by norm_num : (0 : ℝ) < 1)]
      norm_num
    rw [hat, show (-0.001 : ℝ) = -(0.001) by norm_num, Real.arctan_neg]
    set A := Real.arctan 0.001 with hAdef
    have hA1 : 0 < A := arctan_pos_of_pos (by norm_num)
    have hA2 : A < 0.001 := arctan_lt_self_of_pos (by norm_num)
    have hpi : (3 : ℝ) < π := Real.pi_gt_three
    have hApi : A * 180 / π < 0.06 := by
      rw [div_lt_iff₀ Real.pi_pos]
      nlinarith
    have hApi0 : 0 < A * 180 / π := by positivity
    have hv : -A * 180 / π + (360 : ℝ) = 360 - A * 180 / π := by ring
    rw [hv]
    have hv1 : (359.5 : ℝ) < 360 - A * 180 / π := by linarith
    have hv2 : 360 - A * 180 / π < (360 : ℝ) := by linarith
    have hfl : ⌊(360 - A * 180 / π) / (360 : ℝ)⌋ = 0 := by
      rw [Int.floor_eq_zero_iff, Set.mem_Ico]
      constructor
      · apply div_nonneg (by linarith) (by norm_num)
      · rw [div_lt_one (by norm_num : (0 : ℝ) < 360)]
        exact hv2
    have hpm : pymod (360 - A * 180 / π) (360 : ℝ) = 360 - A * 180 / π := by
      unfold pymod
      rw [hfl]
      push_cast
      ring
    rw [hpm, show (360 : ℤ) = 359 + 1 by norm_num]
    apply pyRound_eq_of_gt_half
    · push_cast
      linarith
    · push_cast
      linarith
  exact ⟨key, by rw [key]; norm_num⟩

/-- C4 corrected: in the non-degenerate branch the real-valued aspect is
in [0, 360), and the returned integer aspect is in [0, 360] — rounding
can reach 360 exactly, so strictness fails only at the integer step. -/
theorem C4_aspect_range (lat : ℝ) (h0 hN hE : ℝ) (rest : List ℝ)
    (hd : ¬(dxM lat ≤ 1e-6 ∨ dyM ≤ 1e-6)) :
    (0 ≤ pymod (atan2 (-((hE - h0) / dxM lat)) (-((hN - h0) / dyM))
        * 180 / π + 360.0) 360.0 ∧
      pymod (atan2 (-((hE - h0) / dxM lat)) (-((hN - h0) / dyM))
        * 180 / π + 360.0) 360.0 < 360.0) ∧
    0 ≤ (topoFromElevs lat (h0 :: hN :: hE :: rest)).2.1 ∧
    (topoFromElevs lat (h0 :: hN :: hE :: rest)).2.1 ≤ 360 := by
  have h360 : (0 : ℝ) < 360.0 := by norm_num
  refine ⟨⟨pymod_nonneg _ h360, pymod_lt _ h360⟩, ?_, ?_⟩
  · rw [topoFromElevs_aspect lat h0 hN hE rest hd]
    apply le_pyRound_of_le
    push_cast
    exact pymod_nonneg _ h360
  · rw [topoFromElevs_aspect lat h0 hN hE rest hd]
    apply pyRound_le_of_le
    push_cast
    have := pymod_lt (atan2 (-((hE - h0) / dxM lat)) (-((hN - h0) / dyM))
      * 180 / π + 360.0) h360
    linarith

/-- C4 witness: at latitude 0 with flat samples the returned aspect lies
in [0, 360]. -/
theorem C4_aspect_range_witness :
    0 ≤ (topoFromElevs 0 [0, 0, 0]).2.1 ∧
    (topoFromElevs 0 [0, 0, 0]).2.1 ≤ 360 :=
  ((C4_aspect_range 0 0 0 0 []
    (by push_neg; exact ⟨by rw [dxM_0]; norm_num, by rw [dyM_val]; norm_num⟩)).2)

end BeeLocate
